import Mathlib

/-!
Verification of the payout transaction state machine of the Nivesh repository.

The definitions below are a shallow embedding of the TypeScript sources
`src/lib/actions/transaction-india.actions.ts`,
`src/app/api/webhooks/razorpay/route.ts` and
`src/lib/actions/razorpay.actions.ts`.

Modelling conventions:
- Transaction states are string literals in the source (`TransactionState` is a
  union of string literals, and several code paths cast raw Razorpay status
  strings into it with `as TransactionState`), so states are modelled as `String`.
- `Date.now()` is passed in explicitly as a `now : Nat` parameter.
- The Appwrite document store is modelled as in-memory lists; `Query.equal` with
  `Query.limit(1)` is `List.find?`, `updateDocument` rewrites the record with the
  given document id.
- External calls (`createPayout`, `getPayout`) are modelled by passing their
  outcome (`Except String RazorpayPayout`) as a parameter; a thrown error is the
  `Except.error` case.  Where a claim concerns the request sent to the external
  API, the request actually issued is returned alongside the result.
- SHA-256 and HMAC-SHA-256 are replaced by a deterministic stand-in hash; the
  webhook logic relies only on the hash being a deterministic function of its
  input, never on any cryptographic property.
-/

namespace Nivesh

/-- Transaction states as in the TypeScript source: string literals. -/
abbrev TState := String

/-- The eleven-value `TransactionState` enum from `src/types/index.d.ts`. -/
def TRANSACTION_STATES : List TState :=
  ["initiated", "submitted", "queued", "pending", "processing", "completed",
   "failed", "reversed", "cancelled", "refund_pending", "refund_completed"]

/-- `VALID_TRANSITIONS` record from `transaction-india.actions.ts` (lines 37-49).
A lookup on a key outside the record is `undefined` in the source and the
caller turns that into `false` via `?.includes(..) ?? false`; returning `[]`
for such keys gives the same observable behaviour. -/
def VALID_TRANSITIONS (s : TState) : List TState :=
  if s = "initiated" then ["submitted", "queued", "pending", "failed", "cancelled"]
  else if s = "submitted" then ["queued", "pending", "failed", "cancelled"]
  else if s = "queued" then ["pending", "processing", "cancelled", "failed"]
  else if s = "pending" then ["processing", "completed", "failed", "reversed"]
  else if s = "processing" then ["completed", "failed", "reversed"]
  else if s = "completed" then ["reversed", "refund_pending"]
  else if s = "failed" then []
  else if s = "reversed" then []
  else if s = "cancelled" then []
  else if s = "refund_pending" then ["refund_completed", "failed"]
  else if s = "refund_completed" then []
  else []

/-- `isValidTransition` from `transaction-india.actions.ts` (lines 83-89). -/
def isValidTransition (fromState toState : TState) : Bool :=
  (VALID_TRANSITIONS fromState).contains toState

/-- `TERMINAL_STATES` constant from `transaction-india.actions.ts` (lines 54-60).
The source list contains five entries, including the string `completed`. -/
def TERMINAL_STATES : List TState :=
  ["completed", "failed", "reversed", "cancelled", "refund_completed"]

/-- `isTerminalState` from `transaction-india.actions.ts` (lines 97-99). -/
def isTerminalState (state : TState) : Bool :=
  TERMINAL_STATES.contains state

/-- The transition table exactly as written in the specification (section 4.1),
as a set of directed edges, used to compare `isValidTransition` against the
specification text. -/
def specTransitionTable : List (TState × TState) :=
  [("initiated", "submitted"), ("initiated", "queued"), ("initiated", "pending"),
   ("initiated", "failed"), ("initiated", "cancelled"),
   ("submitted", "queued"), ("submitted", "pending"), ("submitted", "failed"),
   ("submitted", "cancelled"),
   ("queued", "pending"), ("queued", "processing"), ("queued", "cancelled"),
   ("queued", "failed"),
   ("pending", "processing"), ("pending", "completed"), ("pending", "failed"),
   ("pending", "reversed"),
   ("processing", "completed"), ("processing", "failed"), ("processing", "reversed"),
   ("completed", "reversed"), ("completed", "refund_pending"),
   ("refund_pending", "refund_completed"), ("refund_pending", "failed")]

/-- `RETRY_CONFIG.maxRetries` from `transaction-india.actions.ts`. -/
def RETRY_CONFIG_maxRetries : Nat := 3

/-- `RETRY_CONFIG.initialDelayMs` from `transaction-india.actions.ts`. -/
def RETRY_CONFIG_initialDelayMs : Nat := 60000

/-- `RETRY_CONFIG.maxDelayMs` from `transaction-india.actions.ts`. -/
def RETRY_CONFIG_maxDelayMs : Nat := 3600000

/-- `RETRY_CONFIG.backoffMultiplier` from `transaction-india.actions.ts`. -/
def RETRY_CONFIG_backoffMultiplier : Nat := 2

/-- `calculateRetryDelay` from `transaction-india.actions.ts` (lines 107-110). -/
def calculateRetryDelay (retryCount : Nat) : Nat :=
  min (RETRY_CONFIG_initialDelayMs * RETRY_CONFIG_backoffMultiplier ^ retryCount)
    RETRY_CONFIG_maxDelayMs

/-- One entry of the `stateHistory` JSON array (`StateTransition` in
`src/types/index.d.ts`).  The opaque `metadata` bag is not modelled; no claim
depends on its contents. -/
structure StateTransition where
  fromState : TState
  toState : TState
  timestamp : Nat
  reason : Option String := none
  source : String := "system"
deriving DecidableEq

/-- The `IndianTransaction` document (`src/types/index.d.ts`), restricted to the
fields the state machine reads or writes.  `stateHistory` is stored as a JSON
string in the source and is represented here as the parsed list (serialization
happens only at the persistence boundary). -/
structure Transaction where
  docId : String
  userId : String
  transactionId : String
  idempotencyKey : String
  razorpayPayoutId : Option String := none
  razorpayFundAccountId : Option String := none
  state : TState
  previousState : Option TState := none
  stateHistory : List StateTransition := []
  amount : Nat := 0
  mode : String := "IMPS"
  purpose : String := "payout"
  narration : Option String := none
  utr : Option String := none
  razorpayFees : Option Nat := none
  razorpayTax : Option Nat := none
  failureDescription : Option String := none
  retryCount : Nat := 0
  maxRetries : Nat := 3
  nextRetryAt : Option Nat := none
  createdAt : Nat := 0
  updatedAt : Nat := 0
  submittedAt : Option Nat := none
  completedAt : Option Nat := none
  failedAt : Option Nat := none
deriving DecidableEq

/-- A document of the `webhook_events` collection, as created and updated by the
webhook route. -/
structure WebhookEventRecord where
  docId : String
  eventId : String
  eventType : String
  payloadHash : String
  processed : Bool
  createdAt : Nat
  processedAt : Option Nat := none
  transactionId : Option String := none
  error : Option String := none
deriving DecidableEq

/-- The relevant slice of the Appwrite database: the `transactions_india` and
`webhook_events` collections.  `nextDocId` models the `ID.unique()` generator. -/
structure Db where
  transactions : List Transaction := []
  webhookEvents : List WebhookEventRecord := []
  nextDocId : Nat := 0
deriving DecidableEq

/-- A `RazorpayPayout` entity as returned by `createPayout` and `getPayout`. -/
structure RazorpayPayout where
  id : String
  status : String
  utr : Option String := none
  fees : Option Nat := none
  tax : Option Nat := none
  failure_reason : Option String := none
deriving DecidableEq

/-- `listDocuments` with `Query.equal(transactionId, ..)` and `Query.limit(1)`:
the first matching document. -/
def findTransaction (db : Db) (tid : String) : Option Transaction :=
  db.transactions.find? (fun t => t.transactionId == tid)

/-- `updateDocument` on the transactions collection: rewrites the record with
the given Appwrite document id. -/
def updateTransaction (db : Db) (docId : String) (f : Transaction → Transaction) : Db :=
  { db with transactions := db.transactions.map (fun t => if t.docId == docId then f t else t) }

/-- Result shape of `transitionState`. -/
structure TransitionResult where
  success : Bool
  transaction : Option Transaction := none
  error : Option String := none
deriving DecidableEq

/-- The updated transaction written by a successful `transitionState` call
(`transaction-india.actions.ts` lines 160-195): state, previousState, appended
history entry, `updatedAt`, plus `completedAt` for completed or
refund_completed and `failedAt` (and the reason as failure description) for
failed, reversed or cancelled. -/
def appliedTransition (tx : Transaction) (now : Nat) (newState : TState)
    (reason : Option String) (source : String) : Transaction :=
  let entry : StateTransition :=
    { fromState := tx.state, toState := newState, timestamp := now,
      reason := reason, source := source }
  let t1 : Transaction :=
    { tx with
      state := newState
      previousState := some tx.state
      stateHistory := tx.stateHistory ++ [entry]
      updatedAt := now }
  if newState = "completed" ∨ newState = "refund_completed" then
    { t1 with completedAt := some now }
  else if newState = "failed" ∨ newState = "reversed" ∨ newState = "cancelled" then
    { t1 with
      failedAt := some now
      failureDescription :=
        match reason with
        | some r => some r
        | none => t1.failureDescription }
  else t1

/-- `transitionState` from `transaction-india.actions.ts` (lines 126-205):
looks up the transaction, validates the transition from the stored state via
`isValidTransition`, and on success writes the updated document. -/
def transitionState (db : Db) (now : Nat) (transactionId : String) (newState : TState)
    (reason : Option String) (source : String) : TransitionResult × Db :=
  match findTransaction db transactionId with
  | none => ({ success := false, error := some "Transaction not found" }, db)
  | some transaction =>
    if isValidTransition transaction.state newState then
      let t2 := appliedTransition transaction now newState reason source
      ({ success := true, transaction := some t2 },
       updateTransaction db transaction.docId (fun _ => t2))
    else
      ({ success := false,
         error := some ("Invalid state transition from " ++ transaction.state ++
           " to " ++ newState) }, db)

/-- `getTransactionsForRetry` from `transaction-india.actions.ts` (lines
216-245): transactions in state submitted or failed with `nextRetryAt <= now`
and `retryCount < maxRetries`, limited to 50.  A document with a null
`nextRetryAt` does not match the comparison query. -/
def getTransactionsForRetry (db : Db) (now : Nat) : List Transaction :=
  (db.transactions.filter (fun t =>
    (t.state == "submitted" || t.state == "failed") &&
    (match t.nextRetryAt with
     | some r => r ≤ now
     | none => false) &&
    t.retryCount < RETRY_CONFIG_maxRetries)).take 50

/-- The argument record of the external `createPayout` call. -/
structure PayoutRequest where
  account_number : String
  fund_account_id : String
  amount : Nat
  currency : String
  mode : String
  purpose : String
  reference_id : String
  narration : Option String
deriving DecidableEq

/-- Result shape of `retryTransaction`. -/
structure RetryResult where
  success : Bool
  newState : Option TState := none
  error : Option String := none
deriving DecidableEq

/-- `retryTransaction` from `transaction-india.actions.ts` (lines 253-371).
The outcome of the external `createPayout` call is a parameter; the request the
function actually sends to `createPayout` is returned as the third component
(`none` when the external call is never made), so that theorems can speak about
whether and how the external payout API was invoked. -/
def retryTransaction (db : Db) (now : Nat) (accountNumber : String)
    (transactionId : String) (createPayoutOutcome : Except String RazorpayPayout) :
    RetryResult × Db × Option PayoutRequest :=
  match findTransaction db transactionId with
  | none => ({ success := false, error := some "Transaction not found" }, db, none)
  | some transaction =>
    if ¬(transaction.state = "submitted" ∨ transaction.state = "failed") then
      ({ success := false,
         error := some ("Transaction in " ++ transaction.state ++
           " state is not retryable") }, db, none)
    else if RETRY_CONFIG_maxRetries ≤ transaction.retryCount then
      ({ success := false, error := some "Maximum retry attempts reached" }, db, none)
    else
      let newRetryCount := transaction.retryCount + 1
      let req : PayoutRequest :=
        { account_number := accountNumber
          fund_account_id := transaction.razorpayFundAccountId.getD ""
          amount := transaction.amount
          currency := "INR"
          mode := transaction.mode
          purpose := transaction.purpose
          reference_id := transaction.idempotencyKey
          narration := transaction.narration }
      match createPayoutOutcome with
      | Except.ok payout =>
        let newState : TState :=
          if payout.status = "processed" then "completed" else payout.status
        let entry : StateTransition :=
          { fromState := transaction.state, toState := newState, timestamp := now,
            source := "system", reason := some ("Retry " ++ toString newRetryCount) }
        let t2 : Transaction :=
          { transaction with
            razorpayPayoutId := some payout.id
            state := newState
            previousState := some transaction.state
            stateHistory := transaction.stateHistory ++ [entry]
            retryCount := newRetryCount
            utr := payout.utr
            razorpayFees := payout.fees
            razorpayTax := payout.tax
            updatedAt := now
            completedAt := if newState = "completed" then some now else transaction.completedAt }
        ({ success := true, newState := some newState },
         updateTransaction db transaction.docId (fun _ => t2), some req)
      | Except.error msg =>
        let nextRetryAt := now + calculateRetryDelay newRetryCount
        let failedPermanently := RETRY_CONFIG_maxRetries ≤ newRetryCount
        let entry : StateTransition :=
          { fromState := transaction.state
            toState := if failedPermanently then "failed" else transaction.state
            timestamp := now
            source := "system"
            reason := some ("Retry " ++ toString newRetryCount ++ " failed: " ++ msg) }
        let t2 : Transaction :=
          { transaction with
            retryCount := newRetryCount
            nextRetryAt := if failedPermanently then none else some nextRetryAt
            state := if failedPermanently then "failed" else transaction.state
            stateHistory := transaction.stateHistory ++ [entry]
            failureDescription := some msg
            updatedAt := now
            failedAt := if failedPermanently then some now else transaction.failedAt }
        ({ success := false
           newState := if failedPermanently then some "failed" else none
           error := some msg },
         updateTransaction db transaction.docId (fun _ => t2), some req)

/-- The status mapping inside `reconcileTransaction`
(`transaction-india.actions.ts` lines 487-497): `processed` and `rejected` are
remapped, every other status string is cast through unchanged
(`razorpayPayout.status as TransactionState`). -/
def reconcileMapStatus (status : String) : TState :=
  if status = "processed" then "completed"
  else if status = "rejected" then "failed"
  else status

/-- The `ReconciliationResult` record from `src/types/index.d.ts`. -/
structure ReconciliationResult where
  transactionId : String
  previousState : TState
  newState : TState
  source : String := "razorpay_sync"
  reconciled : Bool
  discrepancy : Option String := none
deriving DecidableEq

/-- `reconcileTransaction` from `transaction-india.actions.ts` (lines 444-555).
The outcome of the external `getPayout` call is a parameter; `Except.error`
models a thrown error, handled by the surrounding catch block. -/
def reconcileTransaction (db : Db) (now : Nat) (transactionId : String)
    (getPayoutOutcome : Except String RazorpayPayout) : ReconciliationResult × Db :=
  match findTransaction db transactionId with
  | none =>
    ({ transactionId := transactionId, previousState := "initiated",
       newState := "initiated", reconciled := false,
       discrepancy := some "Transaction not found" }, db)
  | some transaction =>
    let previousState := transaction.state
    match transaction.razorpayPayoutId with
    | none =>
      ({ transactionId := transactionId, previousState := previousState,
         newState := previousState, reconciled := true,
         discrepancy := some "No Razorpay payout ID - local only" }, db)
    | some _ =>
      match getPayoutOutcome with
      | Except.error msg =>
        ({ transactionId := transactionId, previousState := "initiated",
           newState := "initiated", reconciled := false,
           discrepancy := some msg }, db)
      | Except.ok payout =>
        let razorpayState := reconcileMapStatus payout.status
        if razorpayState = previousState then
          ({ transactionId := transactionId, previousState := previousState,
             newState := previousState, reconciled := true }, db)
        else if isValidTransition previousState razorpayState then
          let r := transitionState db now transactionId razorpayState
            (some ("Reconciled from Razorpay status: " ++ payout.status)) "reconciliation"
          ({ transactionId := transactionId, previousState := previousState,
             newState := razorpayState, reconciled := r.1.success,
             discrepancy :=
               if r.1.success then
                 some ("State updated from " ++ previousState ++ " to " ++ razorpayState)
               else r.1.error }, r.2)
        else
          ({ transactionId := transactionId, previousState := previousState,
             newState := previousState, reconciled := false,
             discrepancy := some ("Invalid transition from " ++ previousState ++
               " to " ++ razorpayState ++ " (Razorpay: " ++ payout.status ++ ")") }, db)

/-- Deterministic stand-in for a hex SHA-256 digest.  The webhook logic relies
only on the digest being a deterministic function of its input (for event-id
derivation and payload auditing), never on a cryptographic property, so any
deterministic function is a faithful model. -/
def sha256hex (s : String) : String :=
  toString (s.data.foldl (fun a c => (a * 131 + c.toNat) % 1000000007) 7)

/-- The webhook secret from the environment (`RAZORPAY_WEBHOOK_SECRET`). -/
def RAZORPAY_WEBHOOK_SECRET : String := "whsec"

/-- Deterministic stand-in for the HMAC-SHA-256 hex digest used by
`verifyWebhookSignature` in the Razorpay SDK wrapper. -/
def hmacSha256hex (secret payload : String) : String :=
  sha256hex (secret ++ "|" ++ payload)

/-- `verifyWebhookSignature` from the Razorpay SDK wrapper: the header must
equal the HMAC of the raw body under the webhook secret (the timing-safe
comparison is observably equality). -/
def verifyWebhookSignature (payload signature : String) : Bool :=
  signature == hmacSha256hex RAZORPAY_WEBHOOK_SECRET payload

/-- The `payload.payout.entity` of a webhook event. -/
structure PayoutEntity where
  id : String
  status : String
  reference_id : Option String := none
  utr : Option String := none
  fees : Option Nat := none
  tax : Option Nat := none
  failure_reason : Option String := none
deriving DecidableEq

/-- A parsed `RazorpayWebhookEvent`: account id, event type, optional payout
entity and creation timestamp. -/
structure RazorpayWebhookEvent where
  account_id : String
  event : String
  payout : Option PayoutEntity := none
  created_at : Nat
deriving DecidableEq

/-- `PAYOUT_EVENTS` from the webhook route (lines 33-42). -/
def PAYOUT_EVENTS : List String :=
  ["payout.queued", "payout.pending", "payout.processing", "payout.processed",
   "payout.reversed", "payout.cancelled", "payout.rejected", "payout.failed"]

/-- `isPayoutEvent` from the webhook route (lines 168-170). -/
def isPayoutEvent (eventType : String) : Bool :=
  PAYOUT_EVENTS.contains eventType

/-- `generateEventId` from the webhook route (lines 335-348): a digest of
account id, event type, payout entity id (or the string unknown) and the
creation timestamp. -/
def generateEventId (event : RazorpayWebhookEvent) : String :=
  sha256hex (String.intercalate ":"
    [event.account_id, event.event,
     (match event.payout with
      | some p => p.id
      | none => "unknown"),
     toString event.created_at])

/-- `mapPayoutStatusToState` from the webhook route (lines 302-322).  Note the
default branch: every status outside the eight known ones maps to pending. -/
def mapPayoutStatusToState (status : String) : TState :=
  if status = "queued" then "queued"
  else if status = "pending" then "pending"
  else if status = "processing" then "processing"
  else if status = "processed" then "completed"
  else if status = "reversed" then "reversed"
  else if status = "cancelled" then "cancelled"
  else if status = "rejected" ∨ status = "failed" then "failed"
  else "pending"

/-- The eight-status external payout vocabulary of the specification. -/
def payoutStatusVocabulary : List String :=
  ["queued", "pending", "processing", "processed", "reversed", "cancelled",
   "rejected", "failed"]

/-- Result shape of `processPayoutEvent`. -/
structure ProcessingResult where
  success : Bool
  transactionId : Option String := none
  error : Option String := none
deriving DecidableEq

/-- The transaction lookup of `processPayoutEvent` (webhook route lines
190-204): by Razorpay payout id first, falling back to the idempotency key
when the event carries a `reference_id`. -/
def findTransactionByPayout (db : Db) (payout : PayoutEntity) : Option Transaction :=
  match db.transactions.find? (fun t => t.razorpayPayoutId == some payout.id) with
  | some t => some t
  | none =>
    match payout.reference_id with
    | some ref => db.transactions.find? (fun t => t.idempotencyKey == ref)
    | none => none

/-- `processPayoutEvent` from the webhook route (lines 178-294): maps the
payout status, skips when the state is unchanged, validates the transition,
performs it through `transitionState`, then writes the additional payout
fields. -/
def processPayoutEvent (db : Db) (now : Nat) (event : RazorpayWebhookEvent) :
    ProcessingResult × Db :=
  match event.payout with
  | none => ({ success := false, error := some "No payout entity in event" }, db)
  | some payout =>
    match findTransactionByPayout db payout with
    | none =>
      ({ success := false,
         error := some ("Transaction not found for payout " ++ payout.id) }, db)
    | some transaction =>
      let newState := mapPayoutStatusToState payout.status
      if newState = transaction.state then
        ({ success := true, transactionId := some transaction.transactionId }, db)
      else if ¬(isValidTransition transaction.state newState = true) then
        ({ success := false, transactionId := some transaction.transactionId,
           error := some ("Invalid transition from " ++ transaction.state ++
             " to " ++ newState) }, db)
      else
        let r := transitionState db now transaction.transactionId newState
          (some ("Webhook: " ++ event.event)) "webhook"
        if ¬(r.1.success = true) then
          ({ success := false, transactionId := some transaction.transactionId,
             error := r.1.error }, r.2)
        else
          let db2 := updateTransaction r.2 transaction.docId (fun t =>
            { t with
              razorpayPayoutId := some payout.id
              utr := payout.utr
              razorpayFees := payout.fees
              razorpayTax := payout.tax
              failureDescription :=
                match payout.failure_reason with
                | some fr => some fr
                | none => t.failureDescription })
          ({ success := true, transactionId := some transaction.transactionId }, db2)

/-- The JSON response of the webhook route, together with the HTTP status. -/
structure WebhookResponse where
  status : Nat
  success : Option Bool := none
  message : Option String := none
  error : Option String := none
  eventId : Option String := none
  transactionId : Option String := none
deriving DecidableEq

/-- An inbound webhook request: the raw body, the signature header (absent when
the header is missing) and the event obtained by parsing the raw body.  JSON
parsing is deterministic, so two requests with the identical raw body carry the
identical parsed event. -/
structure WebhookRequest where
  rawBody : String
  signature : Option String
  event : RazorpayWebhookEvent
deriving DecidableEq

/-- The `POST` handler of the webhook route (lines 50-159): signature check,
event-id dedup against the `webhook_events` collection, creation of the event
record before processing, processing, and the update of the event record with
the processing result. -/
def webhookPOST (db : Db) (now : Nat) (req : WebhookRequest) : WebhookResponse × Db :=
  match req.signature with
  | none => ({ status := 400, error := some "Missing signature header" }, db)
  | some sig =>
    if ¬(verifyWebhookSignature req.rawBody sig = true) then
      ({ status := 401, error := some "Invalid signature" }, db)
    else
      let event := req.event
      let eventId := generateEventId event
      if 0 < (db.webhookEvents.filter (fun r => r.eventId == eventId)).length then
        ({ status := 200, success := some true,
           message := some "Event already processed", eventId := some eventId }, db)
      else
        let recDocId := "we_" ++ toString db.nextDocId
        let record : WebhookEventRecord :=
          { docId := recDocId, eventId := eventId, eventType := event.event,
            payloadHash := sha256hex req.rawBody, processed := false, createdAt := now }
        let db1 : Db :=
          { db with
            webhookEvents := db.webhookEvents ++ [record]
            nextDocId := db.nextDocId + 1 }
        let pr :=
          if isPayoutEvent event.event then processPayoutEvent db1 now event
          else (({ success := true } : ProcessingResult), db1)
        let db3 : Db :=
          { pr.2 with
            webhookEvents := pr.2.webhookEvents.map (fun r =>
              if r.docId == recDocId then
                { r with
                  processed := pr.1.success
                  processedAt := some now
                  transactionId := pr.1.transactionId
                  error := pr.1.error }
              else r) }
        if ¬(pr.1.success = true) then
          ({ status := 200, success := some true,
             message := some "Event received but processing failed",
             error := pr.1.error }, db3)
        else
          ({ status := 200, success := some true,
             message := some "Event processed successfully",
             eventId := some eventId, transactionId := pr.1.transactionId }, db3)

/-- Result shape of `initiatePayoutIndia`. -/
structure InitiateResult where
  success : Bool
  transactionId : Option String := none
  razorpayPayoutId : Option String := none
  state : Option TState := none
  error : Option String := none
deriving DecidableEq

/-- The transaction-record core of `initiatePayoutIndia` from
`razorpay.actions.ts` (lines 556-676), starting after the fund-account
preconditions have passed.  The generated idempotency key and transaction id
(`generateIdempotencyKey`, a timestamp-and-random string) are parameters, as is
the outcome of the external `createPayout` call.  On success the source stores
the raw Razorpay status with an unchecked cast
(`razorpayPayout.status as TransactionState`, line 614); on failure it moves
the record to submitted with `nextRetryAt = now + 60000`. -/
def initiatePayoutIndia (db : Db) (now : Nat) (userId idempotencyKey transactionId
    fundAccountId : String) (amountPaise : Nat) (mode purpose : String)
    (narration : Option String) (createPayoutOutcome : Except String RazorpayPayout) :
    InitiateResult × Db :=
  let entry0 : StateTransition :=
    { fromState := "initiated", toState := "initiated", timestamp := now, source := "user" }
  let tx0 : Transaction :=
    { docId := "tx_" ++ toString db.nextDocId
      userId := userId
      transactionId := transactionId
      idempotencyKey := idempotencyKey
      razorpayFundAccountId := some fundAccountId
      state := "initiated"
      stateHistory := [entry0]
      amount := amountPaise
      mode := mode
      purpose := purpose
      narration := narration
      retryCount := 0
      maxRetries := 3
      createdAt := now
      updatedAt := now }
  let db1 : Db :=
    { db with transactions := db.transactions ++ [tx0], nextDocId := db.nextDocId + 1 }
  match createPayoutOutcome with
  | Except.ok payout =>
    let newState : TState := payout.status
    let entry1 : StateTransition :=
      { fromState := "initiated", toState := newState, timestamp := now, source := "system" }
    let tx1 : Transaction :=
      { tx0 with
        razorpayPayoutId := some payout.id
        state := newState
        previousState := some "initiated"
        stateHistory := [entry0, entry1]
        utr := payout.utr
        razorpayFees := payout.fees
        razorpayTax := payout.tax
        submittedAt := some now
        updatedAt := now }
    ({ success := true, transactionId := some transactionId,
       razorpayPayoutId := some payout.id, state := some newState },
     updateTransaction db1 tx0.docId (fun _ => tx1))
  | Except.error msg =>
    let entry1 : StateTransition :=
      { fromState := "initiated", toState := "submitted", timestamp := now,
        source := "system", reason := some msg }
    let tx1 : Transaction :=
      { tx0 with
        state := "submitted"
        previousState := some "initiated"
        stateHistory := [entry0, entry1]
        failureDescription := some msg
        nextRetryAt := some (now + 60000)
        updatedAt := now }
    ({ success := false, transactionId := some transactionId,
       state := some "submitted", error := some msg },
     updateTransaction db1 tx0.docId (fun _ => tx1))

/-- `cancelPayoutIndia` from `razorpay.actions.ts` (lines 689-773): only a
queued transaction can be cancelled; on success the state becomes cancelled.
The outcome of the external `cancelPayout` call is a parameter (`Except.error`
models a thrown error, caught by the surrounding catch block before any
write). -/
def cancelPayoutIndia (db : Db) (now : Nat) (transactionId userId : String)
    (cancelOutcome : Except String Unit) : (Bool × Option String) × Db :=
  match db.transactions.find? (fun t =>
      t.transactionId == transactionId && t.userId == userId) with
  | none => ((false, some "Transaction not found"), db)
  | some transaction =>
    if ¬(transaction.state = "queued") then
      ((false, some ("Cannot cancel payout in " ++ transaction.state ++ " state")), db)
    else
      let entry : StateTransition :=
        { fromState := transaction.state, toState := "cancelled", timestamp := now,
          source := "user" }
      let t2 : Transaction :=
        { transaction with
          state := "cancelled"
          previousState := some transaction.state
          stateHistory := transaction.stateHistory ++ [entry]
          updatedAt := now }
      match transaction.razorpayPayoutId with
      | none => ((true, none), updateTransaction db transaction.docId (fun _ => t2))
      | some _ =>
        match cancelOutcome with
        | Except.error msg => ((false, some msg), db)
        | Except.ok _ => ((true, none), updateTransaction db transaction.docId (fun _ => t2))

/-- Outcome of the store adapter operation described by the specification. -/
inductive ApplyOutcome
  | applied (t : Transaction)
  | conflict
  | notFound
deriving DecidableEq

/-- Modelled from the spec: the `applyTransition(transactionId,
expectedCurrentState, newState, transitionRecord, fieldUpdates)` operation of
section 4.2, which no function under `src/` implements as written — it is a
conditional update that fails with Conflict whenever the stored state no longer
equals `expectedCurrentState` at write time, and otherwise atomically sets the
new state and appends the transition record.  It is defined here only to be
compared with the source's `transitionState`. -/
def applyTransition_specModel (db : Db) (now : Nat) (transactionId : String)
    (expectedCurrentState newState : TState) (reason : Option String)
    (source : String) : ApplyOutcome × Db :=
  match findTransaction db transactionId with
  | none => (ApplyOutcome.notFound, db)
  | some tx =>
    if ¬(tx.state = expectedCurrentState) then (ApplyOutcome.conflict, db)
    else
      let t2 := appliedTransition tx now newState reason source
      (ApplyOutcome.applied t2, updateTransaction db tx.docId (fun _ => t2))

/-! ## Claim C2: the transition table -/

/-- C2: `isValidTransition` returns true for exactly the pairs of the
specification's transition table, and false for every other pair of states; in
particular failed, reversed, cancelled and refund_completed have zero valid
outgoing transitions. -/
theorem C2_transition_table_closure :
    (∀ f ∈ TRANSACTION_STATES, ∀ t ∈ TRANSACTION_STATES,
      (isValidTransition f t = true ↔ (f, t) ∈ specTransitionTable)) ∧
    (∀ f ∈ (["failed", "reversed", "cancelled", "refund_completed"] : List TState),
      ∀ t ∈ TRANSACTION_STATES, isValidTransition f t = false) := by
  decide

/-- Witness for C2 at concrete states. -/
theorem C2_transition_table_closure_witness :
    isValidTransition "completed" "refund_pending" = true ∧
    isValidTransition "failed" "queued" = false := by
  refine ⟨?_, ?_⟩
  · exact (C2_transition_table_closure.1 "completed" (by decide) "refund_pending"
      (by decide)).mpr (by decide)
  · exact C2_transition_table_closure.2 "failed" (by decide) "queued" (by decide)

/-! ## Claim C9: the terminal-state predicate -/

/-- C9: the claim states that `isTerminalState` is the membership test for the
four-state terminal set and returns false for completed; the source list
`TERMINAL_STATES` however contains five entries including completed, even
though `VALID_TRANSITIONS` gives completed two outgoing transitions (so the
source contradicts its own comment that terminal states allow no further
transitions).  This theorem evaluates the code at the failing input. -/
theorem C9_isTerminalState_completed :
    isTerminalState "completed" = true ∧
    VALID_TRANSITIONS "completed" = ["reversed", "refund_pending"] ∧
    TERMINAL_STATES = ["completed", "failed", "reversed", "cancelled", "refund_completed"] ∧
    isTerminalState "failed" = true ∧ isTerminalState "reversed" = true ∧
    isTerminalState "cancelled" = true ∧ isTerminalState "refund_completed" = true := by
  refine ⟨by decide, by decide, by decide, by decide, by decide, by decide, by decide⟩

/-! ## Claim C5: exponential backoff -/

/-- The scenario for C5: the initial submission and all three retries fail. -/
def c5db1 : Db :=
  (initiatePayoutIndia ({} : Db) 1000 "user5" "key5" "txn5" "fa_5" 50000 "IMPS"
    "payout" none (Except.error "timeout")).2

/-- State of the C5 scenario after the first failed retry. -/
def c5db2 : Db := (retryTransaction c5db1 61000 "acct" "txn5" (Except.error "timeout")).2.1

/-- State of the C5 scenario after the second failed retry. -/
def c5db3 : Db := (retryTransaction c5db2 181000 "acct" "txn5" (Except.error "timeout")).2.1

/-- State of the C5 scenario after the third failed retry. -/
def c5db4 : Db := (retryTransaction c5db3 421000 "acct" "txn5" (Except.error "timeout")).2.1

/-- C5: with maxRetries 3, initial delay 60s, multiplier 2 and cap 1h, a
transaction whose submission and every retry fail is scheduled with successive
delays of 60s, 120s and 240s, each equal to
min(initialDelay * multiplier ^ retryCount, maxDelay) at the stored retry
count, and immediately after the third failed retry it is failed with failedAt
set and nextRetryAt cleared. -/
theorem C5_backoff_growth :
    (∀ n : Nat, calculateRetryDelay n =
      min (RETRY_CONFIG_initialDelayMs * RETRY_CONFIG_backoffMultiplier ^ n)
        RETRY_CONFIG_maxDelayMs) ∧
    calculateRetryDelay 0 = 60000 ∧
    calculateRetryDelay 1 = 120000 ∧
    calculateRetryDelay 2 = 240000 ∧
    ((findTransaction c5db1 "txn5").map (fun t => (t.state, t.retryCount, t.nextRetryAt)) =
      some ("submitted", 0, some (1000 + calculateRetryDelay 0))) ∧
    ((getTransactionsForRetry c5db1 61000).map (fun t => t.transactionId) = ["txn5"]) ∧
    ((findTransaction c5db2 "txn5").map (fun t => (t.state, t.retryCount, t.nextRetryAt)) =
      some ("submitted", 1, some (61000 + calculateRetryDelay 1))) ∧
    ((findTransaction c5db3 "txn5").map (fun t => (t.state, t.retryCount, t.nextRetryAt)) =
      some ("submitted", 2, some (181000 + calculateRetryDelay 2))) ∧
    ((findTransaction c5db4 "txn5").map
        (fun t => (t.state, t.retryCount, t.nextRetryAt, t.failedAt)) =
      some ("failed", 3, none, some 421000)) := by
  exact ⟨fun n => rfl, by decide, by decide, by decide, by decide, by decide, by decide,
    by decide, by decide⟩

/-! ## Claim C8: states outside the enum can be stored -/

/-- A submitted transaction used for the C8 retry path. -/
def c8tx : Transaction :=
  { docId := "d8"
    userId := "u8"
    transactionId := "txn8r"
    idempotencyKey := "key8r"
    razorpayFundAccountId := some "fa_8"
    state := "submitted"
    retryCount := 0 }

/-- A database holding only the C8 transaction. -/
def c8db : Db := { transactions := [c8tx] }

/-- C8: the claim states every write leaves the state inside the eleven-value
enum; the source however stores the raw Razorpay status through an unchecked
cast both in `initiatePayoutIndia` (line 614) and in the success path of
`retryTransaction` (lines 300-301), so a createPayout response with status
processed (during initiation) or rejected (during retry) is written verbatim
even though neither string is in the enum.  Every other code path maps
processed to completed and rejected to failed.  This theorem evaluates the
code at the failing inputs. -/
theorem C8_raw_status_escapes_enum :
    ((initiatePayoutIndia ({} : Db) 100 "u8" "key8" "txn8" "fa_8" 50000 "UPI" "payout"
        none (Except.ok { id := "pout_8", status := "processed" })).2.transactions.map
        (fun t => t.state) = ["processed"]) ∧
    ¬("processed" ∈ TRANSACTION_STATES) ∧
    ((retryTransaction c8db 9 "acct" "txn8r"
        (Except.ok { id := "pout_8r", status := "rejected" })).2.1.transactions.map
        (fun t => t.state) = ["rejected"]) ∧
    ¬("rejected" ∈ TRANSACTION_STATES) := by
  refine ⟨by decide, by decide, by decide, by decide⟩

/-! ## Claim C1: terminal states and re-entry -/

/-- A failed transaction with a retry budget left, used to refute C1. -/
def c1tx : Transaction :=
  { docId := "d1"
    userId := "u1"
    transactionId := "txn1"
    idempotencyKey := "key1"
    razorpayFundAccountId := some "fa_1"
    state := "failed"
    retryCount := 0 }

/-- A database holding only the C1 transaction. -/
def c1db : Db := { transactions := [c1tx] }

/-- C1 counterexample: failed is terminal, yet `retryTransaction` resubmits a
failed transaction whose retry budget is not exhausted and, when the external
payout call succeeds, moves its stored state to the returned status — here
from failed to queued.  So a retry-scheduler call can change the state of a
transaction in a terminal state. -/
theorem C1_counterexample :
    ("failed" ∈ (["failed", "reversed", "cancelled", "refund_completed"] : List TState)) ∧
    ((retryTransaction c1db 5000 "acct" "txn1"
        (Except.ok { id := "pout_1", status := "queued" })).1.success = true) ∧
    ((retryTransaction c1db 5000 "acct" "txn1"
        (Except.ok { id := "pout_1", status := "queued" })).2.1.transactions.map
        (fun t => t.state) = ["queued"]) := by
  refine ⟨by decide, by decide, by decide⟩

/-! ## Claim C3: the state-transition write operation -/

/-- A submitted transaction used for the C3 comparison. -/
def c3tx : Transaction :=
  { docId := "d3"
    userId := "u3"
    transactionId := "txn3"
    idempotencyKey := "key3"
    state := "submitted" }

/-- A database holding only the C3 transaction. -/
def c3db : Db := { transactions := [c3tx] }

/-- C3 counterexample: the specification's conditional-update operation with
expected state initiated fails with Conflict on a record whose stored state has
meanwhile become submitted and leaves the database unchanged, while the
source's `transitionState` — which takes no expected state at all — succeeds on
the same database and writes the new state.  So `transitionState` does not
implement the claimed optimistic-concurrency behaviour. -/
theorem C3_counterexample :
    ((applyTransition_specModel c3db 9 "txn3" "initiated" "queued" none "system").1 =
      ApplyOutcome.conflict) ∧
    ((applyTransition_specModel c3db 9 "txn3" "initiated" "queued" none "system").2 = c3db) ∧
    ((transitionState c3db 9 "txn3" "queued" none "system").1.success = true) ∧
    ((transitionState c3db 9 "txn3" "queued" none "system").2.transactions.map
      (fun t => t.state) = ["queued"]) := by
  refine ⟨by decide, by decide, by decide, by decide⟩

/-- C3 amended: `transitionState` takes no expected current state; it re-reads
the stored transaction and succeeds exactly when the transaction exists and
the transition from the re-read stored state to the new state is valid per the
table, in which case it atomically sets the new state, appends the transition
record and applies the associated field updates; on any failure the stored
record is unchanged.  There is no write-time Conflict check. -/
theorem C3_transitionState_characterization (db : Db) (now : Nat) (tid ns : String)
    (r : Option String) (src : String) :
    ((transitionState db now tid ns r src).1.success = true ↔
      ∃ tx, findTransaction db tid = some tx ∧ isValidTransition tx.state ns = true) ∧
    ((transitionState db now tid ns r src).1.success = false →
      (transitionState db now tid ns r src).2 = db) ∧
    (∀ tx, findTransaction db tid = some tx → isValidTransition tx.state ns = true →
      (transitionState db now tid ns r src).2 =
        updateTransaction db tx.docId (fun _ => appliedTransition tx now ns r src) ∧
      (appliedTransition tx now ns r src).state = ns ∧
      (appliedTransition tx now ns r src).previousState = some tx.state ∧
      (appliedTransition tx now ns r src).stateHistory = tx.stateHistory ++
        [{ fromState := tx.state, toState := ns, timestamp := now,
           reason := r, source := src }]) := by
  refine ⟨?_, ?_, ?_⟩
  · constructor
    · intro hs
      unfold transitionState at hs
      cases hf : findTransaction db tid with
      | none => rw [hf] at hs; simp at hs
      | some tx =>
        rw [hf] at hs
        by_cases hv : isValidTransition tx.state ns = true
        · exact ⟨tx, rfl, hv⟩
        · simp [hv] at hs
    · rintro ⟨tx, hf, hv⟩
      unfold transitionState
      rw [hf]
      simp [hv]
  · intro hs
    unfold transitionState at hs
    unfold transitionState
    cases hf : findTransaction db tid with
    | none => rfl
    | some tx =>
      rw [hf] at hs
      by_cases hv : isValidTransition tx.state ns = true
      · simp [hv] at hs
      · simp [hv]
  · intro tx hf hv
    refine ⟨?_, ?_, ?_, ?_⟩
    · unfold transitionState
      rw [hf]
      simp [hv]
    · simp only [appliedTransition]
      split
      · rfl
      · split <;> rfl
    · simp only [appliedTransition]
      split
      · rfl
      · split <;> rfl
    · simp only [appliedTransition]
      split
      · rfl
      · split <;> rfl

/-- Witness for C3 amended at concrete inputs: a valid transition on the C3
database succeeds, and an invalid one leaves the database unchanged. -/
theorem C3_transitionState_characterization_witness :
    (transitionState c3db 9 "txn3" "queued" none "system").1.success = true ∧
    (transitionState c3db 9 "txn3" "refund_completed" none "system").2 = c3db := by
  refine ⟨?_, ?_⟩
  · exact (C3_transitionState_characterization c3db 9 "txn3" "queued" none "system").1.mpr
      ⟨c3tx, by decide, by decide⟩
  · exact (C3_transitionState_characterization c3db 9 "txn3" "refund_completed" none
      "system").2.1 (by decide)

/-! ## Claim C4: the external status mapping -/

/-- On a status outside the eight-status vocabulary, the webhook mapping falls
into its default branch and yields pending. -/
theorem mapPayoutStatusToState_of_not_mem (s : String)
    (h : ¬ s ∈ payoutStatusVocabulary) : mapPayoutStatusToState s = "pending" := by
  simp only [payoutStatusVocabulary, List.mem_cons, List.not_mem_nil, or_false] at h
  push_neg at h
  obtain ⟨h1, h2, h3, h4, h5, h6, h7, h8⟩ := h
  simp [mapPayoutStatusToState, h1, h2, h3, h4, h5, h6, h7, h8]

/-- On a status outside the eight-status vocabulary, the reconciler mapping is
the identity cast. -/
theorem reconcileMapStatus_of_not_mem (s : String)
    (h : ¬ s ∈ payoutStatusVocabulary) : reconcileMapStatus s = s := by
  simp only [payoutStatusVocabulary, List.mem_cons, List.not_mem_nil, or_false] at h
  push_neg at h
  obtain ⟨h1, h2, h3, h4, h5, h6, h7, h8⟩ := h
  simp [reconcileMapStatus, h4, h7]

/-- A queued transaction with a payout id, used to refute C4 through the
webhook processor. -/
def c4tx : Transaction :=
  { docId := "d4"
    userId := "u4"
    transactionId := "txn4"
    idempotencyKey := "key4"
    razorpayPayoutId := some "pout_4"
    state := "queued" }

/-- A database holding only the C4 transaction. -/
def c4db : Db := { transactions := [c4tx] }

/-- A payout webhook event whose entity carries a status outside the
vocabulary. -/
def c4event : RazorpayWebhookEvent :=
  { account_id := "acc4"
    event := "payout.pending"
    payout := some { id := "pout_4", status := "on_hold" }
    created_at := 11 }

/-- C4 counterexample: for the out-of-vocabulary status on_hold the webhook
processor maps to pending and, on a queued transaction, performs the queued to
pending transition: the stored state changes and no discrepancy is flagged,
contradicting the claim that unrecognized statuses leave the state unchanged
and are flagged. -/
theorem C4_counterexample :
    ¬("on_hold" ∈ payoutStatusVocabulary) ∧
    mapPayoutStatusToState "on_hold" = "pending" ∧
    ((processPayoutEvent c4db 11 c4event).1.success = true) ∧
    ((processPayoutEvent c4db 11 c4event).1.error = none) ∧
    ((processPayoutEvent c4db 11 c4event).2.transactions.map (fun t => t.state) =
      ["pending"]) := by
  refine ⟨by decide, by decide, by decide, by decide, by decide⟩

/-- C4 amended: the webhook processor and the reconciler use the identical
mapping on the eight-status vocabulary; outside the vocabulary they differ —
the reconciler passes the raw status through, leaving the stored state
unchanged and flagging a discrepancy whenever that raw status differs from the
current state and is not a valid transition target, while the webhook
processor maps every unrecognized status to pending, which can validly change
the stored state without any discrepancy. -/
theorem C4_status_mapping_amended (s : String) :
    (s ∈ payoutStatusVocabulary → mapPayoutStatusToState s = reconcileMapStatus s) ∧
    (¬ s ∈ payoutStatusVocabulary →
      mapPayoutStatusToState s = "pending" ∧ reconcileMapStatus s = s) ∧
    (∀ db : Db, ∀ now : Nat, ∀ tid : String, ∀ pay : RazorpayPayout, ∀ tx : Transaction,
      pay.status = s →
      ¬ s ∈ payoutStatusVocabulary →
      findTransaction db tid = some tx →
      tx.razorpayPayoutId.isSome = true →
      ¬ s = tx.state →
      isValidTransition tx.state s = false →
      (reconcileTransaction db now tid (Except.ok pay)).2 = db ∧
      (reconcileTransaction db now tid (Except.ok pay)).1.reconciled = false ∧
      (reconcileTransaction db now tid (Except.ok pay)).1.newState = tx.state ∧
      (reconcileTransaction db now tid (Except.ok pay)).1.discrepancy.isSome = true) := by
  refine ⟨?_, ?_, ?_⟩
  · intro h
    simp only [payoutStatusVocabulary, List.mem_cons, List.not_mem_nil, or_false] at h
    rcases h with rfl | rfl | rfl | rfl | rfl | rfl | rfl | rfl <;> rfl
  · intro h
    exact ⟨mapPayoutStatusToState_of_not_mem s h, reconcileMapStatus_of_not_mem s h⟩
  · intro db now tid pay tx hps hnv hf hpid hne hinv
    obtain ⟨pid, hid⟩ := Option.isSome_iff_exists.mp hpid
    have hmap : reconcileMapStatus pay.status = s := by
      rw [hps]; exact reconcileMapStatus_of_not_mem s hnv
    unfold reconcileTransaction
    rw [hf]
    simp [hid, hmap, hne, hinv]

/-- A transaction used to witness the reconciler part of C4 amended. -/
def c4rtx : Transaction :=
  { docId := "d4r"
    userId := "u4r"
    transactionId := "txn4r"
    idempotencyKey := "key4r"
    razorpayPayoutId := some "pout_4r"
    state := "processing" }

/-- A database holding only the C4 reconciler witness transaction. -/
def c4rdb : Db := { transactions := [c4rtx] }

/-- Witness for C4 amended at the concrete status on_hold. -/
theorem C4_status_mapping_amended_witness :
    mapPayoutStatusToState "on_hold" = "pending" ∧
    reconcileMapStatus "on_hold" = "on_hold" ∧
    (reconcileTransaction c4rdb 3 "txn4r"
      (Except.ok { id := "pout_4r", status := "on_hold" })).2 = c4rdb := by
  refine ⟨((C4_status_mapping_amended "on_hold").2.1 (by decide)).1,
    ((C4_status_mapping_amended "on_hold").2.1 (by decide)).2, ?_⟩
  exact ((C4_status_mapping_amended "on_hold").2.2 c4rdb 3 "txn4r"
    { id := "pout_4r", status := "on_hold" } c4rtx (by decide) (by decide) (by decide)
    (by decide) (by decide) (by decide)).1

/-! ## Preservation lemmas for states with no outgoing transitions -/

/-- Wellformedness of the document store: Appwrite document ids are primary
keys, so the ids of the transaction documents are pairwise distinct. -/
def DbWF (db : Db) : Prop := (db.transactions.map (fun x => x.docId)).Nodup

instance (db : Db) : Decidable (DbWF db) := by
  unfold DbWF
  infer_instance

/-- In a wellformed store, two transaction records with the same document id
are the same record. -/
theorem docId_injective (db : Db) (hnd : DbWF db) {a b : Transaction}
    (ha : a ∈ db.transactions) (hb : b ∈ db.transactions) (h : a.docId = b.docId) :
    a = b :=
  List.inj_on_of_nodup_map hnd ha hb h

/-- The transition write does not change the document id. -/
theorem appliedTransition_docId (tx : Transaction) (now : Nat) (ns : TState)
    (r : Option String) (src : String) :
    (appliedTransition tx now ns r src).docId = tx.docId := by
  simp only [appliedTransition]
  split
  · rfl
  · split <;> rfl

/-- Every record of an updated store comes from a record of the original
store, either untouched or rewritten by the update. -/
theorem mem_updateTransaction {db : Db} {d : String} {f : Transaction → Transaction}
    {t2 : Transaction} (h : t2 ∈ (updateTransaction db d f).transactions) :
    ∃ s ∈ db.transactions, t2 = if (s.docId == d) = true then f s else s := by
  simp only [updateTransaction, List.mem_map] at h
  obtain ⟨s, hs, he⟩ := h
  exact ⟨s, hs, he.symm⟩

/-- A record whose state admits no outgoing transition keeps its state across
`transitionState`, whatever transition is requested. -/
theorem transitionState_preserves_stuck (db : Db) (now : Nat) (tid ns : String)
    (r : Option String) (src : String) (t : Transaction)
    (hnd : DbWF db) (ht : t ∈ db.transactions)
    (hterm : VALID_TRANSITIONS t.state = []) :
    ∀ t2 ∈ (transitionState db now tid ns r src).2.transactions,
      t2.docId = t.docId → t2.state = t.state := by
  intro t2 h2 hdoc
  unfold transitionState at h2
  cases hf : findTransaction db tid with
  | none =>
    rw [hf] at h2
    have : t2 = t := docId_injective db hnd h2 ht hdoc
    rw [this]
  | some tx =>
    rw [hf] at h2
    by_cases hv : isValidTransition tx.state ns = true
    · simp only [hv, if_true] at h2
      rcases mem_updateTransaction h2 with ⟨s, hs, he⟩
      by_cases hc : (s.docId == tx.docId) = true
      · have he2 : t2 = appliedTransition tx now ns r src := by rw [he, if_pos hc]
        have hd2 : tx.docId = t.docId := by
          rw [← hdoc, he2, appliedTransition_docId]
        have hte : tx = t :=
          docId_injective db hnd (List.mem_of_find?_eq_some hf) ht hd2
        rw [hte] at hv
        rw [isValidTransition, hterm] at hv
        simp at hv
      · have he2 : t2 = s := by rw [he, if_neg hc]
        rw [he2] at hdoc ⊢
        have : s = t := docId_injective db hnd hs ht hdoc
        rw [this]
    · simp only [hv, if_false] at h2
      have : t2 = t := docId_injective db hnd h2 ht hdoc
      rw [this]

/-- Updating a store with a record rewrite that preserves state and document
id preserves any per-document-id statement about states. -/
theorem updateTransaction_state_lift {db : Db} {d : String}
    {f : Transaction → Transaction}
    (hpres : ∀ s, (f s).state = s.state ∧ (f s).docId = s.docId)
    {t : Transaction}
    (h : ∀ u ∈ db.transactions, u.docId = t.docId → u.state = t.state) :
    ∀ u ∈ (updateTransaction db d f).transactions,
      u.docId = t.docId → u.state = t.state := by
  intro u hu hd
  rcases mem_updateTransaction hu with ⟨s, hs, he⟩
  by_cases hc : (s.docId == d) = true
  · have he2 : u = f s := by rw [he, if_pos hc]
    have hsd : s.docId = t.docId := by rw [← hd, he2, (hpres s).2]
    rw [he2, (hpres s).1]
    exact h s hs hsd
  · have he2 : u = s := by rw [he, if_neg hc]
    rw [he2] at hd ⊢
    exact h s hs hd

/-- A record whose state admits no outgoing transition keeps its state across
webhook event processing. -/
theorem processPayoutEvent_preserves_stuck (db : Db) (now : Nat)
    (ev : RazorpayWebhookEvent) (t : Transaction)
    (hnd : DbWF db) (ht : t ∈ db.transactions)
    (hterm : VALID_TRANSITIONS t.state = []) :
    ∀ t2 ∈ (processPayoutEvent db now ev).2.transactions,
      t2.docId = t.docId → t2.state = t.state := by
  have hbase : ∀ t2 ∈ db.transactions, t2.docId = t.docId → t2.state = t.state := by
    intro t2 h2 hdoc
    have : t2 = t := docId_injective db hnd h2 ht hdoc
    rw [this]
  intro t2 h2 hdoc
  unfold processPayoutEvent at h2
  split at h2
  · exact hbase t2 h2 hdoc
  · split at h2
    · exact hbase t2 h2 hdoc
    · simp only [] at h2
      split at h2
      · exact hbase t2 h2 hdoc
      · split at h2
        · exact hbase t2 h2 hdoc
        · split at h2
          · simp only [] at h2
            exact transitionState_preserves_stuck db now _ _ _ _ t hnd ht hterm
              t2 h2 hdoc
          · simp only [] at h2
            refine updateTransaction_state_lift ?_ ?_ t2 h2 hdoc
            · exact fun s => ⟨rfl, rfl⟩
            · exact transitionState_preserves_stuck db now _ _ _ _ t hnd ht hterm

/-- A record whose state admits no outgoing transition keeps its state across
a webhook delivery. -/
theorem webhookPOST_preserves_stuck (db : Db) (now : Nat) (req : WebhookRequest)
    (t : Transaction) (hnd : DbWF db) (ht : t ∈ db.transactions)
    (hterm : VALID_TRANSITIONS t.state = []) :
    ∀ t2 ∈ (webhookPOST db now req).2.transactions,
      t2.docId = t.docId → t2.state = t.state := by
  have hbase : ∀ t2 ∈ db.transactions, t2.docId = t.docId → t2.state = t.state := by
    intro t2 h2 hdoc
    have : t2 = t := docId_injective db hnd h2 ht hdoc
    rw [this]
  intro t2 h2 hdoc
  unfold webhookPOST at h2
  split at h2
  · exact hbase t2 h2 hdoc
  · split at h2
    · exact hbase t2 h2 hdoc
    · simp only [] at h2
      split at h2
      · exact hbase t2 h2 hdoc
      · split at h2 <;> (try split at h2) <;> (try simp only [] at h2) <;>
          first
          | exact hbase t2 h2 hdoc
          | exact processPayoutEvent_preserves_stuck _ now req.event t (by exact hnd)
              (by exact ht) hterm t2 h2 hdoc

/-- A record whose state admits no outgoing transition keeps its state across
reconciliation. -/
theorem reconcileTransaction_preserves_stuck (db : Db) (now : Nat) (tid : String)
    (outcome : Except String RazorpayPayout) (t : Transaction)
    (hnd : DbWF db) (ht : t ∈ db.transactions)
    (hterm : VALID_TRANSITIONS t.state = []) :
    ∀ t2 ∈ (reconcileTransaction db now tid outcome).2.transactions,
      t2.docId = t.docId → t2.state = t.state := by
  have hbase : ∀ t2 ∈ db.transactions, t2.docId = t.docId → t2.state = t.state := by
    intro t2 h2 hdoc
    have : t2 = t := docId_injective db hnd h2 ht hdoc
    rw [this]
  intro t2 h2 hdoc
  unfold reconcileTransaction at h2
  split at h2
  · exact hbase t2 h2 hdoc
  · simp only [] at h2
    split at h2
    · exact hbase t2 h2 hdoc
    · split at h2
      · exact hbase t2 h2 hdoc
      · split at h2
        · exact hbase t2 h2 hdoc
        · split at h2
          · exact transitionState_preserves_stuck db now tid _ _ _ t hnd ht hterm
              t2 h2 hdoc
          · exact hbase t2 h2 hdoc

/-- A record whose state is neither submitted nor failed keeps its state across
`retryTransaction`, whatever transaction is being retried. -/
theorem retryTransaction_preserves_nonretryable (db : Db) (now : Nat)
    (acct tid : String) (outcome : Except String RazorpayPayout) (t : Transaction)
    (hnd : DbWF db) (ht : t ∈ db.transactions)
    (hst : ¬(t.state = "submitted" ∨ t.state = "failed")) :
    ∀ t2 ∈ (retryTransaction db now acct tid outcome).2.1.transactions,
      t2.docId = t.docId → t2.state = t.state := by
  have hbase : ∀ t2 ∈ db.transactions, t2.docId = t.docId → t2.state = t.state := by
    intro t2 h2 hdoc
    have : t2 = t := docId_injective db hnd h2 ht hdoc
    rw [this]
  intro t2 h2 hdoc
  unfold retryTransaction at h2
  split at h2
  · exact hbase t2 h2 hdoc
  · rename_i tx hf
    split at h2
    · exact hbase t2 h2 hdoc
    · rename_i hrtn
      have hrt : tx.state = "submitted" ∨ tx.state = "failed" := not_not.mp hrtn
      have htx : tx ∈ db.transactions := List.mem_of_find?_eq_some hf
      split at h2
      · exact hbase t2 h2 hdoc
      · simp only [] at h2
        split at h2
        · rcases mem_updateTransaction h2 with ⟨s, hs, he⟩
          by_cases hc : (s.docId == tx.docId) = true
          · have hd2 : tx.docId = t.docId := by
              rw [← hdoc, he, if_pos hc]
            have hte : tx = t := docId_injective db hnd htx ht hd2
            exact absurd (hte ▸ hrt) hst
          · have he2 : t2 = s := by rw [he, if_neg hc]
            rw [he2] at hdoc ⊢
            exact hbase s hs hdoc
        · rcases mem_updateTransaction h2 with ⟨s, hs, he⟩
          by_cases hc : (s.docId == tx.docId) = true
          · have hd2 : tx.docId = t.docId := by
              rw [← hdoc, he, if_pos hc]
            have hte : tx = t := docId_injective db hnd htx ht hd2
            exact absurd (hte ▸ hrt) hst
          · have he2 : t2 = s := by rw [he, if_neg hc]
            rw [he2] at hdoc ⊢
            exact hbase s hs hdoc

/-- C1 amended: once a transaction reaches reversed, cancelled or
refund_completed, no webhook delivery, reconciliation call or retry call
changes its stored state; a failed transaction is likewise never changed by
webhook deliveries or reconciliation, and the retry scheduler only ever
selects submitted or failed transactions — but `retryTransaction` itself can
resubmit a failed transaction with remaining retry budget and change its
state (see the counterexample). -/
theorem C1_terminal_state_preservation (db : Db) (now : Nat) (t : Transaction)
    (hnd : DbWF db) (ht : t ∈ db.transactions)
    (hterm : t.state ∈
      (["failed", "reversed", "cancelled", "refund_completed"] : List TState)) :
    (∀ req, ∀ t2 ∈ (webhookPOST db now req).2.transactions,
      t2.docId = t.docId → t2.state = t.state) ∧
    (∀ tid outcome, ∀ t2 ∈ (reconcileTransaction db now tid outcome).2.transactions,
      t2.docId = t.docId → t2.state = t.state) ∧
    (∀ u ∈ getTransactionsForRetry db now,
      u.state = "submitted" ∨ u.state = "failed") ∧
    (¬ t.state = "failed" →
      ∀ acct tid outcome,
        ∀ t2 ∈ (retryTransaction db now acct tid outcome).2.1.transactions,
          t2.docId = t.docId → t2.state = t.state) := by
  have hv : VALID_TRANSITIONS t.state = [] := by
    simp only [List.mem_cons, List.not_mem_nil, or_false] at hterm
    rcases hterm with h | h | h | h <;> rw [h] <;> rfl
  refine ⟨?_, ?_, ?_, ?_⟩
  · intro req
    exact webhookPOST_preserves_stuck db now req t hnd ht hv
  · intro tid outcome
    exact reconcileTransaction_preserves_stuck db now tid outcome t hnd ht hv
  · intro u hu
    unfold getTransactionsForRetry at hu
    have hu2 := List.mem_of_mem_take hu
    have hp := (List.mem_filter.mp hu2).2
    simp only [Bool.and_eq_true, Bool.or_eq_true, beq_iff_eq] at hp
    tauto
  · intro hnf acct tid outcome
    have hst : ¬(t.state = "submitted" ∨ t.state = "failed") := by
      simp only [List.mem_cons, List.not_mem_nil, or_false] at hterm
      rcases hterm with h | h | h | h
      · exact absurd h hnf
      · rw [h]; decide
      · rw [h]; decide
      · rw [h]; decide
    exact retryTransaction_preserves_nonretryable db now acct tid outcome t hnd ht hst

/-- Witness transaction for C1: a reversed transaction. -/
def c1wtx : Transaction :=
  { docId := "d9"
    userId := "u9"
    transactionId := "txn9"
    idempotencyKey := "key9"
    state := "reversed" }

/-- A database holding only the C1 witness transaction. -/
def c1wdb : Db := { transactions := [c1wtx] }

/-- Witness for C1 amended: a retry attempt against a concrete reversed
transaction leaves its state untouched. -/
theorem C1_terminal_state_preservation_witness :
    ((retryTransaction c1wdb 9 "acct" "txn9"
      (Except.ok { id := "p9", status := "queued" })).2.1.transactions.all
      (fun t2 => t2.docId != "d9" || t2.state == "reversed")) = true := by
  have h := (C1_terminal_state_preservation c1wdb 9 c1wtx (by decide) (by decide)
    (by decide)).2.2.2 (by decide) "acct" "txn9"
    (Except.ok { id := "p9", status := "queued" })
  refine List.all_eq_true.mpr ?_
  intro t2 ht2
  by_cases hd : t2.docId = "d9"
  · exact Bool.or_eq_true_iff.mpr (Or.inr (beq_iff_eq.mpr (h t2 ht2 hd)))
  · exact Bool.or_eq_true_iff.mpr (Or.inl (bne_iff_ne.mpr hd))

/-! ## Claim C6: retries reuse the idempotency key -/

/-- C6: whenever `retryTransaction` invokes the external payout-creation call,
the request carries `reference_id` equal to the stored idempotency key of the
transaction being retried (no new key is minted); and for a transaction whose
state is neither submitted nor failed it returns an error without invoking the
external call and without touching the database, so queued, pending or
processing transactions are never resubmitted. -/
theorem C6_retry_idempotency (db : Db) (now : Nat) (acct tid : String)
    (outcome : Except String RazorpayPayout) :
    (∀ req2, (retryTransaction db now acct tid outcome).2.2 = some req2 →
      ∃ tx, findTransaction db tid = some tx ∧
        req2.reference_id = tx.idempotencyKey) ∧
    (∀ tx, findTransaction db tid = some tx →
      ¬(tx.state = "submitted" ∨ tx.state = "failed") →
      (retryTransaction db now acct tid outcome).2.2 = none ∧
      (retryTransaction db now acct tid outcome).1.success = false ∧
      (retryTransaction db now acct tid outcome).2.1 = db) := by
  constructor
  · intro req2 hreq
    unfold retryTransaction at hreq
    split at hreq
    · simp at hreq
    · rename_i tx hf
      split at hreq
      · simp at hreq
      · split at hreq
        · simp at hreq
        · simp only [] at hreq
          split at hreq
          · refine ⟨tx, hf, ?_⟩
            simp only [] at hreq
            injection hreq with h
            rw [← h]
          · refine ⟨tx, hf, ?_⟩
            simp only [] at hreq
            injection hreq with h
            rw [← h]
  · intro tx hf hns
    unfold retryTransaction
    rw [hf]
    simp [hns]

/-- A processing transaction used to witness C6. -/
def c6tx : Transaction :=
  { docId := "d6"
    userId := "u6"
    transactionId := "txn6"
    idempotencyKey := "key6"
    state := "processing" }

/-- A database holding only the C6 transaction. -/
def c6db : Db := { transactions := [c6tx] }

/-- Witness for C6 at a concrete processing transaction. -/
theorem C6_retry_idempotency_witness :
    (retryTransaction c6db 5 "acct" "txn6"
      (Except.ok { id := "p6", status := "processed" })).2.2 = none ∧
    (retryTransaction c6db 5 "acct" "txn6"
      (Except.ok { id := "p6", status := "processed" })).1.success = false ∧
    (retryTransaction c6db 5 "acct" "txn6"
      (Except.ok { id := "p6", status := "processed" })).2.1 = c6db :=
  (C6_retry_idempotency c6db 5 "acct" "txn6"
    (Except.ok { id := "p6", status := "processed" })).2 c6tx (by decide) (by decide)

/-! ## Webhook deduplication -/

/-- `transitionState` touches only the transactions collection. -/
theorem transitionState_webhookEvents (db : Db) (now : Nat) (tid ns : String)
    (r : Option String) (src : String) :
    (transitionState db now tid ns r src).2.webhookEvents = db.webhookEvents := by
  unfold transitionState
  split
  · rfl
  · split
    · rfl
    · rfl

/-- `processPayoutEvent` touches only the transactions collection. -/
theorem processPayoutEvent_webhookEvents (db : Db) (now : Nat)
    (ev : RazorpayWebhookEvent) :
    (processPayoutEvent db now ev).2.webhookEvents = db.webhookEvents := by
  unfold processPayoutEvent
  split
  · rfl
  · split
    · rfl
    · simp only []
      split
      · rfl
      · split
        · rfl
        · split
          · exact transitionState_webhookEvents db now _ _ _ _
          · exact transitionState_webhookEvents db now _ _ _ _

/-- The updated copy of the freshly appended event record is in the updated
collection and satisfies whatever the update gives it. -/
theorem exists_eventId_in_map_upd (l : List WebhookEventRecord)
    (record : WebhookEventRecord) (upd : WebhookEventRecord → WebhookEventRecord)
    (P : WebhookEventRecord → Prop) (h : P (upd record)) :
    ∃ r ∈ (l ++ [record]).map upd, P r :=
  ⟨upd record,
   List.mem_map_of_mem upd (List.mem_append_right l (List.mem_singleton_self record)),
   h⟩

/-- After a signature-valid delivery, the store holds an event record for the
derived event id (either it already existed, or the delivery created it). -/
theorem webhookPOST_creates_record (db : Db) (now : Nat) (req : WebhookRequest)
    (sig : String) (hsig : req.signature = some sig)
    (hv : verifyWebhookSignature req.rawBody sig = true) :
    ∃ r ∈ (webhookPOST db now req).2.webhookEvents,
      r.eventId = generateEventId req.event := by
  unfold webhookPOST
  split
  · rename_i hnone
    rw [hsig] at hnone
    exact Option.noConfusion hnone
  · rename_i sig2 hsome
    rw [hsig] at hsome
    injection hsome with hs2
    subst hs2
    split
    · rename_i hnv
      exact absurd hv hnv
    · simp only []
      split
      · rename_i hdup
        obtain ⟨r0, hr0⟩ := List.exists_mem_of_ne_nil _ (List.length_pos.mp hdup)
        have h2 := List.mem_filter.mp hr0
        exact ⟨r0, h2.1, beq_iff_eq.mp h2.2⟩
      · split <;>
          (try split) <;>
          · try rw [processPayoutEvent_webhookEvents]
            exact exists_eventId_in_map_upd _ _ _ _
              (by simp only [beq_self_eq_true, if_true, ite_true])

/-- A delivery whose derived event id already has a stored record is answered
with the already-processed response and changes nothing. -/
theorem webhookPOST_dedup (db : Db) (now : Nat) (req : WebhookRequest)
    (sig : String) (hsig : req.signature = some sig)
    (hv : verifyWebhookSignature req.rawBody sig = true)
    (hex : ∃ r ∈ db.webhookEvents, r.eventId = generateEventId req.event) :
    webhookPOST db now req =
      ({ status := 200, success := some true,
         message := some "Event already processed",
         eventId := some (generateEventId req.event) }, db) := by
  obtain ⟨r0, hr0, hid0⟩ := hex
  have hdup : 0 < (db.webhookEvents.filter
      (fun r => r.eventId == generateEventId req.event)).length :=
    List.length_pos.mpr (List.ne_nil_of_mem
      (List.mem_filter.mpr ⟨hr0, beq_iff_eq.mpr hid0⟩))
  unfold webhookPOST
  rw [hsig]
  simp [hv, hdup]

/-! ## Claim C7: idempotent webhook delivery -/

/-- C7: delivering the identical payload and signature twice derives the same
event id both times, and the second delivery finds the stored event record,
returns the success-shaped already-processed response immediately and leaves
the whole database — transactions included — exactly as the first delivery
left it, so all transaction mutation happens in the first delivery. -/
theorem C7_duplicate_webhook_delivery (db : Db) (now1 now2 : Nat)
    (req : WebhookRequest) (sig : String) (hsig : req.signature = some sig)
    (hv : verifyWebhookSignature req.rawBody sig = true) :
    webhookPOST (webhookPOST db now1 req).2 now2 req =
      ({ status := 200, success := some true,
         message := some "Event already processed",
         eventId := some (generateEventId req.event) },
       (webhookPOST db now1 req).2) :=
  webhookPOST_dedup _ now2 req sig hsig hv
    (webhookPOST_creates_record db now1 req sig hsig hv)

/-- A queued transaction matching the C7 webhook event. -/
def c7tx : Transaction :=
  { docId := "d7"
    userId := "u7"
    transactionId := "txn7"
    idempotencyKey := "key7"
    razorpayPayoutId := some "pout_7"
    state := "queued" }

/-- A database holding only the C7 transaction. -/
def c7db : Db := { transactions := [c7tx] }

/-- The parsed webhook event of the C7 witness delivery. -/
def c7event : RazorpayWebhookEvent :=
  { account_id := "acc7"
    event := "payout.processed"
    payout := some { id := "pout_7", status := "processed", utr := some "UTR7" }
    created_at := 77 }

/-- The C7 witness request: a correctly signed payout.processed delivery. -/
def c7req : WebhookRequest :=
  { rawBody := "body7"
    signature := some (hmacSha256hex RAZORPAY_WEBHOOK_SECRET "body7")
    event := c7event }

/-- Witness for C7 at a concrete delivery. -/
theorem C7_duplicate_webhook_delivery_witness :
    webhookPOST (webhookPOST c7db 1 c7req).2 2 c7req =
      ({ status := 200, success := some true,
         message := some "Event already processed",
         eventId := some (generateEventId c7event) },
       (webhookPOST c7db 1 c7req).2) :=
  C7_duplicate_webhook_delivery c7db 1 2 c7req
    (hmacSha256hex RAZORPAY_WEBHOOK_SECRET "body7") rfl (by decide)

/-- A delivery of a fresh event id records the event before processing; the
stored record keeps the derived event id and, when the delivery answers that
processing failed, its processed flag is false. -/
theorem webhookPOST_fresh_record_flag (db : Db) (now : Nat) (req : WebhookRequest)
    (sig : String) (hsig : req.signature = some sig)
    (hv : verifyWebhookSignature req.rawBody sig = true)
    (hfresh : ¬ 0 < (db.webhookEvents.filter
        (fun r => r.eventId == generateEventId req.event)).length) :
    ∃ r ∈ (webhookPOST db now req).2.webhookEvents,
      r.eventId = generateEventId req.event ∧
      ((webhookPOST db now req).1.message =
          some "Event received but processing failed" → r.processed = false) := by
  unfold webhookPOST
  split
  · rename_i hnone
    rw [hsig] at hnone
    exact Option.noConfusion hnone
  · rename_i sig2 hsome
    rw [hsig] at hsome
    injection hsome with hs2
    subst hs2
    split
    · rename_i hnv
      exact absurd hv hnv
    · simp only []
      split
      · rename_i hdup
        exact absurd hdup hfresh
      · split
        · split
          · rename_i hns
            rw [processPayoutEvent_webhookEvents]
            refine exists_eventId_in_map_upd _ _ _ _ ⟨?_, ?_⟩
            · simp only [beq_self_eq_true, if_true, ite_true]
            · intro hmsg
              simp only [beq_self_eq_true, if_true, ite_true]
              exact Bool.eq_false_iff.mpr hns
          · rw [processPayoutEvent_webhookEvents]
            refine exists_eventId_in_map_upd _ _ _ _ ⟨?_, ?_⟩
            · simp only [beq_self_eq_true, if_true, ite_true]
            · intro hmsg
              exact absurd (Option.some.inj hmsg) (by decide)
        · split
          · rename_i hns
            exact absurd rfl hns
          · refine exists_eventId_in_map_upd _ _ _ _ ⟨?_, ?_⟩
            · simp only [beq_self_eq_true, if_true, ite_true]
            · intro hmsg
              exact absurd (Option.some.inj hmsg) (by decide)

/-! ## Claim C10: deduplication is by record existence -/

/-- C10: webhook deduplication keys on the mere existence of the stored event
record, not on its processed flag: a first delivery whose business-logic
processing fails still records the event (with processed false), and any later
delivery of the same payload is answered with the already-processed response
and changes nothing — a failed webhook processing is never retried through the
webhook endpoint itself. -/
theorem C10_dedup_ignores_processed_flag (db : Db) (now1 now2 : Nat)
    (req : WebhookRequest) (sig : String) (hsig : req.signature = some sig)
    (hv : verifyWebhookSignature req.rawBody sig = true)
    (hfail : (webhookPOST db now1 req).1.message =
      some "Event received but processing failed") :
    (∃ r ∈ (webhookPOST db now1 req).2.webhookEvents,
      r.eventId = generateEventId req.event ∧ r.processed = false) ∧
    webhookPOST (webhookPOST db now1 req).2 now2 req =
      ({ status := 200, success := some true,
         message := some "Event already processed",
         eventId := some (generateEventId req.event) },
       (webhookPOST db now1 req).2) := by
  constructor
  · by_cases hfound : 0 < (db.webhookEvents.filter
        (fun r => r.eventId == generateEventId req.event)).length
    · have hex : ∃ r ∈ db.webhookEvents, r.eventId = generateEventId req.event := by
        obtain ⟨r0, hr0⟩ := List.exists_mem_of_ne_nil _ (List.length_pos.mp hfound)
        have h2 := List.mem_filter.mp hr0
        exact ⟨r0, h2.1, beq_iff_eq.mp h2.2⟩
      have hd := webhookPOST_dedup db now1 req sig hsig hv hex
      rw [hd] at hfail
      exact absurd (Option.some.inj hfail) (by decide)
    · obtain ⟨r, hrm, hrid, hrp⟩ :=
        webhookPOST_fresh_record_flag db now1 req sig hsig hv hfound
      exact ⟨r, hrm, hrid, hrp hfail⟩
  · exact webhookPOST_dedup _ now2 req sig hsig hv
      (webhookPOST_creates_record db now1 req sig hsig hv)

/-- The parsed webhook event of the C10 witness delivery: its payout matches
no stored transaction, so processing fails. -/
def c10event : RazorpayWebhookEvent :=
  { account_id := "acc10"
    event := "payout.processed"
    payout := some { id := "pout_10", status := "processed" }
    created_at := 5 }

/-- The C10 witness request, correctly signed. -/
def c10req : WebhookRequest :=
  { rawBody := "body10"
    signature := some (hmacSha256hex RAZORPAY_WEBHOOK_SECRET "body10")
    event := c10event }

/-- Witness for C10: on an empty store the first delivery fails processing,
and the second delivery of the same request is the dedup no-op. -/
theorem C10_dedup_ignores_processed_flag_witness :
    (webhookPOST ({} : Db) 1 c10req).1.message =
      some "Event received but processing failed" ∧
    webhookPOST (webhookPOST ({} : Db) 1 c10req).2 2 c10req =
      ({ status := 200, success := some true,
         message := some "Event already processed",
         eventId := some (generateEventId c10event) },
       (webhookPOST ({} : Db) 1 c10req).2) :=
  ⟨by decide,
   (C10_dedup_ignores_processed_flag ({} : Db) 1 2 c10req
     (hmacSha256hex RAZORPAY_WEBHOOK_SECRET "body10") rfl (by decide) (by decide)).2⟩

end Nivesh
